import Mathlib

/-
  Verification development for the LangGraphAgent repository.

  Shallow embedding of:
    src/agents/workflow.py  (AgentState, graph nodes, should_continue, compiled graph)
    src/agents/router.py    (RouterAgent.route_task and its keyword fallback)
    src/main.py             (initial state, feedback submission over the store)
    src/tools/memory.py     (MemoryStore over JSON-like dict values)

  External services (OpenAI, Tavily) are modelled by an environment record
  whose fields give the value each external call returns; a field of type
  Option models a call that may raise inside the Python try block.
-/

namespace LGA

/-- Python dict with string keys, modelled as an insertion-ordered
association list. Assignment d[k] = v replaces the value in place when the
key exists and appends a new entry otherwise, exactly as CPython dicts do. -/
abbrev Dict (β : Type) : Type := List (String × β)

/-- d[k] = v : replace in place or append at the end. -/
def dinsert {β : Type} (k : String) (v : β) : Dict β → Dict β
  | [] => [(k, v)]
  | (k', v') :: rest => if k' = k then (k, v) :: rest else (k', v') :: dinsert k v rest

/-- d.get(k) : first value stored under k, if any. -/
def dget {β : Type} : Dict β → String → Option β
  | [], _ => none
  | (k', v) :: rest, k => if k' = k then some v else dget rest k

/-- The keys of the dict, in insertion order. -/
def dkeys {β : Type} (d : Dict β) : List String := d.map (·.1)

/-! ## Data model (src/agents/workflow.py, class AgentState; src/main.py, HumanFeedback) -/

/-- The human_feedback record built in src/main.py lines 67-72: keys
approved, feedback, modifications, timestamp. The values of the
modifications mapping are not inspected by any control flow, so they are
modelled as strings. -/
structure Feedback where
  approved : Bool
  feedback : String
  modifications : Dict String
  timestamp : String

/-- One trace record appended to the messages list by a graph step. The
auxiliary data payloads attached by some steps are never read by control
logic (spec section 3) and are not modelled. -/
structure Msg where
  agent : String
  message : String

/-- A value stored in the results mapping: either an agent result payload
(produced by an external capability call, hence of the abstract type α) or
the final_output record composed by finalize_node (src/agents/workflow.py
lines 107-113). The results field of finalOutput is the snapshot of the
results mapping at composition time, before final_output itself is
inserted. -/
inductive RVal (α : Type) where
  | payload (a : α)
  | finalOutput (task : String) (completion_time : String) (agents_used : List String)
      (results : List (String × RVal α)) (human_feedback : Option Feedback)

/-- The agents_used field of a final_output record, if the value is one. -/
def RVal.agentsUsed? {α : Type} : RVal α → Option (List String)
  | .finalOutput _ _ au _ _ => some au
  | .payload _ => none

/-- AgentState from src/agents/workflow.py lines 8-17. In the initial dict
of src/main.py lines 32-40 the keys requires_human_input and agent_plan are
absent; Python reads them only through state.get, where absence is falsy,
so absence is modelled as false resp. []. human_feedback is None there,
modelled as none. -/
structure AgentState (α : Type) where
  task : String
  user_id : String
  task_id : String
  messages : List Msg
  results : Dict (RVal α)
  human_feedback : Option Feedback
  status : String
  requires_human_input : Bool
  agent_plan : List String

/-- Behaviour of the external services. llmRoute gives the raw text the
routing LLM call returns for a task, none meaning the call raises inside
the try of route_task. The three exec fields give the dict each agent
execute call returns; those Python methods wrap their whole body in
try/except and return a fallback dict on failure, so they are total. The
four init fields model the agent constructors (openai.OpenAI /
TavilyClient client construction), some msg meaning construction raises. -/
structure Env (α : Type) where
  llmRoute : String → Option String
  researchExec : String → α
  codeExec : String → Option (RVal α) → α
  vizExec : String → Option (RVal α) → Option (RVal α) → α
  routerInit : Option String
  researchInit : Option String
  codeInit : Option String
  vizInit : Option String

/-! ## Python string primitives

The Python string operations used by the router (lower, strip,
split on a comma, substring membership) are modelled directly over the
character list of the string, by structural recursion. -/

/-- Does needle occur as a contiguous run inside hay? Python: needle in hay. -/
def subOccurs (needle : List Char) : List Char → Bool
  | [] => needle.isEmpty
  | c :: rest => needle.isPrefixOf (c :: rest) || subOccurs needle rest

/-- Python substring test: sub in s. -/
def strContains (s sub : String) : Bool := subOccurs sub.data s.data

/-- Python str.lower, characterwise (all the keywords are ASCII). -/
def pyLower (s : String) : String := ⟨s.data.map Char.toLower⟩

/-- Python str.strip: drop whitespace at both ends. -/
def pyStrip (s : String) : String :=
  ⟨(((s.data.dropWhile Char.isWhitespace).reverse.dropWhile Char.isWhitespace).reverse)⟩

/-- Python str.split on a comma, over the character list. -/
def splitCommaAux (acc : List Char) : List Char → List (List Char)
  | [] => [acc.reverse]
  | c :: rest => if c = ',' then acc.reverse :: splitCommaAux [] rest else splitCommaAux (c :: acc) rest

/-- Python str.split with a one-character comma separator. -/
def pySplitComma (s : String) : List String :=
  (splitCommaAux [] s.data).map (fun l => ⟨l⟩)

/-! ## Router (src/agents/router.py, RouterAgent.route_task) -/

def validAgents : List String := ["research", "code", "visualization"]

def researchKeywords : List String := ["analyze", "research", "study", "impact", "find"]

def codeKeywords : List String := ["algorithm", "code", "implement", "develop", "program"]

def vizKeywords : List String := ["visualiz", "chart", "graph", "plot", "diagram"]

/-- Keyword fallback of route_task (src/agents/router.py lines 39-54),
taken when the LLM call raises. -/
def route_fallback (task : String) : List String :=
  let task_lower := pyLower task
  let agents :=
    (if researchKeywords.any (fun w => strContains task_lower w) then ["research"] else []) ++
    (if codeKeywords.any (fun w => strContains task_lower w) then ["code"] else []) ++
    (if vizKeywords.any (fun w => strContains task_lower w) then ["visualization"] else [])
  if agents = [] then ["research"] else agents

/-- RouterAgent.route_task (src/agents/router.py lines 12-54): on a
successful LLM call, strip the reply, split on commas, strip each piece and
keep those naming a valid agent; on failure, keyword fallback. -/
def route_task {α : Type} (env : Env α) (task : String) : List String :=
  match env.llmRoute task with
  | some reply => ((pySplitComma (pyStrip reply)).map pyStrip).filter (fun a => validAgents.contains a)
  | none => route_fallback task

/-! ## Graph nodes (src/agents/workflow.py lines 19-121) -/

def router_node {α : Type} (env : Env α) (s : AgentState α) : AgentState α :=
  let plan := route_task env s.task
  { s with
      agent_plan := plan
      messages := s.messages ++
        [⟨"router", "Task routed to agents: " ++ String.intercalate ", " plan⟩] }

def research_node {α : Type} (env : Env α) (s : AgentState α) : AgentState α :=
  if "research" ∈ s.agent_plan then
    let result := env.researchExec s.task
    { s with
        results := dinsert "research" (.payload result) s.results
        messages := s.messages ++ [⟨"research", "Research completed"⟩] }
  else s

def code_node {α : Type} (env : Env α) (s : AgentState α) : AgentState α :=
  if "code" ∈ s.agent_plan then
    let context := dget s.results "research"
    let result := env.codeExec s.task context
    { s with
        results := dinsert "code" (.payload result) s.results
        messages := s.messages ++ [⟨"code", "Code generation completed"⟩] }
  else s

def visualization_node {α : Type} (env : Env α) (s : AgentState α) : AgentState α :=
  if "visualization" ∈ s.agent_plan then
    let result := env.vizExec s.task (dget s.results "research") (dget s.results "code")
    { s with
        results := dinsert "visualization" (.payload result) s.results
        messages := s.messages ++ [⟨"visualization", "Visualization completed"⟩] }
  else s

def human_checkpoint {α : Type} (s : AgentState α) : AgentState α :=
  { s with
      requires_human_input := true
      status := "awaiting_human_feedback"
      messages := s.messages ++ [⟨"system", "Task completed, awaiting human review"⟩] }

/-- The two targets of the conditional edge after human_checkpoint:
the string finalize, or the END sentinel of langgraph. -/
inductive Route where
  | finalize
  | endRoute
deriving DecidableEq

/-- Truthiness of state.get(key).get(approved): the feedback dict built by
src/main.py always has four keys hence is truthy when present; approved is
a Bool. -/
def fbApproved : Option Feedback → Bool
  | some fb => fb.approved
  | none => false

/-- should_continue (src/agents/workflow.py lines 92-99). -/
def should_continue {α : Type} (s : AgentState α) : Route :=
  if fbApproved s.human_feedback then .finalize
  else if s.requires_human_input && s.human_feedback.isNone then .endRoute
  else .finalize

def finalize_node {α : Type} (s : AgentState α) : AgentState α :=
  let final_output : RVal α :=
    .finalOutput s.task "now" s.agent_plan s.results s.human_feedback
  { s with
      status := "completed"
      requires_human_input := false
      results := dinsert "final_output" final_output s.results
      messages := s.messages ++ [⟨"system", "Task finalized and completed"⟩] }

/-- The linear prefix of the compiled graph: entry router, then research,
code, visualization, human_checkpoint (create_workflow, lines 123-156). -/
def first_pass {α : Type} (env : Env α) (s : AgentState α) : AgentState α :=
  human_checkpoint (visualization_node env (code_node env (research_node env (router_node env s))))

/-- workflow.invoke: the full compiled graph of create_workflow. After the
checkpoint, the conditional edge either runs finalize and ends, or ends
directly in the suspended state. -/
def workflow_invoke {α : Type} (env : Env α) (s : AgentState α) : AgentState α :=
  match should_continue (first_pass env s) with
  | .finalize => finalize_node (first_pass env s)
  | .endRoute => first_pass env s

/-! ## Exception-aware graph run

The agent execute methods catch every exception and return a fallback
dict, and route_task catches its LLM call, but the four agent constructor
calls (RouterAgent(), ResearchAgent(), CodeAgent(), VisualizerAgent())
stand outside every try block of the node functions: client construction
raises when the API key configuration is absent, and that exception
escapes workflow.invoke. Each constructor is invoked only when its node
actually executes (for research/code/visualization, only when the agent is
in the plan). -/

def router_nodeE {α : Type} (env : Env α) (s : AgentState α) : Except String (AgentState α) :=
  match env.routerInit with
  | some e => .error e
  | none => .ok (router_node env s)

def research_nodeE {α : Type} (env : Env α) (s : AgentState α) : Except String (AgentState α) :=
  if "research" ∈ s.agent_plan then
    match env.researchInit with
    | some e => .error e
    | none => .ok (research_node env s)
  else .ok s

def code_nodeE {α : Type} (env : Env α) (s : AgentState α) : Except String (AgentState α) :=
  if "code" ∈ s.agent_plan then
    match env.codeInit with
    | some e => .error e
    | none => .ok (code_node env s)
  else .ok s

def visualization_nodeE {α : Type} (env : Env α) (s : AgentState α) : Except String (AgentState α) :=
  if "visualization" ∈ s.agent_plan then
    match env.vizInit with
    | some e => .error e
    | none => .ok (visualization_node env s)
  else .ok s

/-- workflow.invoke with the constructor exceptions made explicit.
human_checkpoint, should_continue and finalize_node construct no agent and
cannot raise. -/
def workflow_invokeE {α : Type} (env : Env α) (s : AgentState α) :
    Except String (AgentState α) :=
  match router_nodeE env s with
  | .error e => .error e
  | .ok s1 =>
    match research_nodeE env s1 with
    | .error e => .error e
    | .ok s2 =>
      match code_nodeE env s2 with
      | .error e => .error e
      | .ok s3 =>
        match visualization_nodeE env s3 with
        | .error e => .error e
        | .ok s4 =>
          match should_continue (human_checkpoint s4) with
          | .finalize => .ok (finalize_node (human_checkpoint s4))
          | .endRoute => .ok (human_checkpoint s4)

/-! ## Task service (src/main.py) -/

/-- The initial state dict of execute_task (src/main.py lines 32-40). The
task_id is produced from the current time, modelled as a parameter. -/
def initial_state {α : Type} (task user_id task_id : String) : AgentState α :=
  { task := task
    user_id := user_id
    task_id := task_id
    messages := []
    results := []
    human_feedback := none
    status := "processing"
    requires_human_input := false
    agent_plan := [] }

/-- A snapshot in the task store: the state plus the last_updated stamp
that MemoryStore.store_task writes into it (src/tools/memory.py line 32). -/
structure TaskRecord (α : Type) where
  state : AgentState α
  last_updated : String

/-- MemoryStore.store_task as used by src/main.py: stamp and upsert. -/
def store_task_rec {α : Type} (now task_id : String) (s : AgentState α)
    (store : Dict (TaskRecord α)) : Dict (TaskRecord α) :=
  dinsert task_id ⟨s, now⟩ store

/-- The body of the HumanFeedback request of src/main.py lines 15-19. -/
structure FeedbackReq where
  task_id : String
  approved : Bool
  feedback : String
  modifications : Dict String

/-- submit_human_feedback (src/main.py lines 58-102). Python raises
HTTPException(404, Task not found) when the task is unknown, before any
mutation; the outer except re-wraps it as a 500 whose detail carries the
same text. Either way an error and no new store reach the caller, so the
error is modelled by its detail text. On success the new store and the
state returned by workflow.invoke are produced; the HTTP response body is
assembled from these. -/
def submit_human_feedback {α : Type} (env : Env α) (now : String)
    (store : Dict (TaskRecord α)) (req : FeedbackReq) :
    Except String (Dict (TaskRecord α) × AgentState α) :=
  match dget store req.task_id with
  | none => .error "Task not found"
  | some record =>
    let td := { record.state with
                  human_feedback := some ⟨req.approved, req.feedback, req.modifications, now⟩ }
    if req.approved then
      let td := { td with status := "completing" }
      let result := workflow_invoke env td
      .ok (store_task_rec now req.task_id result store, result)
    else
      let td := { td with
                    status := "modified"
                    task := td.task ++ " (Modified based on feedback: " ++ req.feedback ++ ")" }
      let result := workflow_invoke env td
      .ok (store_task_rec now req.task_id result store, result)

/-- execute_task (src/main.py lines 25-53): run the graph on a fresh
initial state and store the result. -/
def execute_task {α : Type} (env : Env α) (now task_id user_id task : String)
    (store : Dict (TaskRecord α)) : Dict (TaskRecord α) × AgentState α :=
  let result := workflow_invoke env (initial_state task user_id task_id)
  (store_task_rec now task_id result store, result)

/-! ## MemoryStore (src/tools/memory.py)

MemoryStore.memory is one dict whose values are themselves dicts: task
snapshots stored by store_task and, under the fixed key contexts, the
mapping written by store_context. The values are modelled by a JSON-like
value type; the file persistence of _save_memory is out of scope. -/

/-- A JSON-like stored value: a string, a nested dict, or a payload of
abstract type. -/
inductive JVal (α : Type) where
  | str (s : String)
  | jdict (d : List (String × JVal α))
  | payload (a : α)

/-- A value of the top-level memory dict: always a dict through this API. -/
abbrev JDict (α : Type) : Type := Dict (JVal α)

namespace MemoryStore

/-- store_task (src/tools/memory.py lines 30-34): stamp last_updated into
the task dict, then assign it under task_id, whatever was there before. -/
def store_task {α : Type} (now task_id : String) (task_data : JDict α)
    (memory : Dict (JDict α)) : Dict (JDict α) :=
  dinsert task_id (dinsert "last_updated" (.str now) task_data) memory

/-- get_task (lines 36-38). -/
def get_task {α : Type} (memory : Dict (JDict α)) (task_id : String) : Option (JDict α) :=
  dget memory task_id

/-- One row of the list_tasks summary. -/
structure ListEntry (α : Type) where
  task : JVal α
  status : JVal α
  last_updated : JVal α

/-- list_tasks (lines 40-49): for every entry of memory, whatever dict it
holds, read its task, status and last_updated keys with default empty
string. -/
def list_tasks {α : Type} (memory : Dict (JDict α)) : Dict (ListEntry α) :=
  memory.map (fun p =>
    (p.1, ⟨(dget p.2 "task").getD (.str ""),
           (dget p.2 "status").getD (.str ""),
           (dget p.2 "last_updated").getD (.str "")⟩))

/-- store_context (lines 56-65): ensure memory has a contexts dict (an
empty one if the key is absent), then assign under the context key a
wrapper dict with the data and a timestamp. -/
def store_context {α : Type} (now key : String) (context : JDict α)
    (memory : Dict (JDict α)) : Dict (JDict α) :=
  let contexts := (dget memory "contexts").getD []
  dinsert "contexts"
    (dinsert key (.jdict [("data", .jdict context), ("timestamp", .str now)]) contexts)
    memory

end MemoryStore

/-- The state on which the graph is re-invoked in the approved = false
branch of submit_human_feedback (src/main.py lines 86-92): feedback
merged, status set to modified, task rewritten with the feedback text. -/
def rejected_rerun_state {α : Type} (now : String) (st : AgentState α) (req : FeedbackReq) :
    AgentState α :=
  { st with
      human_feedback := some ⟨false, req.feedback, req.modifications, now⟩
      status := "modified"
      task := st.task ++ " (Modified based on feedback: " ++ req.feedback ++ ")" }

/-! ## Concrete data used by witnesses and counterexamples -/

/-- An environment whose LLM routing call always fails (exercising the
keyword fallback), with trivial payloads and succeeding constructors. -/
def envNone : Env Unit :=
  { llmRoute := fun _ => none
    researchExec := fun _ => ()
    codeExec := fun _ _ => ()
    vizExec := fun _ _ _ => ()
    routerInit := none
    researchInit := none
    codeInit := none
    vizInit := none }

def c1sA : AgentState Unit :=
  { initial_state "t" "u" "i" with human_feedback := some ⟨true, "", [], "ts"⟩ }

def c1sB : AgentState Unit :=
  { initial_state "t" "u" "i" with requires_human_input := true }

def c1sC : AgentState Unit :=
  { initial_state "t" "u" "i" with human_feedback := some ⟨false, "", [], "ts"⟩ }

/-- The suspended first-pass snapshot of a concrete research task. -/
def c2pass1 : AgentState Unit :=
  workflow_invoke envNone (initial_state "Analyze stuff" "demo_user" "t1")

def c2store : Dict (TaskRecord Unit) := store_task_rec "d1" "t1" c2pass1 []

def c2req : FeedbackReq := ⟨"t1", false, "try harder", []⟩

/-- The suspended snapshot with approved feedback merged and status set to
completing, exactly as the feedback endpoint mutates it before re-invoking
the graph. -/
def c8state : AgentState Unit :=
  { c2pass1 with human_feedback := some ⟨true, "ok", [], "d2"⟩, status := "completing" }

/-- An environment whose routing LLM call answers research for the
original task and code for any other (in particular for the rewritten
task of a rejected-feedback re-run). -/
def envSplit : Env Unit :=
  { envNone with llmRoute := fun t => if t = "taskA" then some "research" else some "code" }

def c4pass1 : AgentState Unit := workflow_invoke envSplit (initial_state "taskA" "demo_user" "t4")

def c4merged : AgentState Unit := rejected_rerun_state "d2" c4pass1 ⟨"t4", false, "bad", []⟩

/-- An environment in which the OpenAI client construction raises, as it
does when no API key is configured. -/
def envNoKey : Env Unit :=
  { envNone with routerInit := some "The api_key client option must be set" }

/-- A memory holding one context, stored under the context key task. -/
def c10m1 : Dict (JDict Unit) :=
  MemoryStore.store_context "t0" "task" [("x", .str "1")] []

/-- The wrapper dict store_context builds for that context. -/
def c10wrap : JVal Unit :=
  .jdict [("data", .jdict [("x", .str "1")]), ("timestamp", .str "t0")]

/-! ## Lemmas about dicts and strings -/

theorem dget_dinsert_self {β : Type} (k : String) (v : β) (d : Dict β) :
    dget (dinsert k v d) k = some v := by
  induction d with
  | nil => simp [dinsert, dget]
  | cons hd tl ih =>
    obtain ⟨k', v'⟩ := hd
    by_cases h : k' = k <;> simp [dinsert, dget, h, ih]

theorem dget_dinsert_ne {β : Type} {a k : String} (v : β) (d : Dict β) (h : a ≠ k) :
    dget (dinsert k v d) a = dget d a := by
  have h' : ¬k = a := fun hh => h hh.symm
  induction d with
  | nil => simp [dinsert, dget, h']
  | cons hd tl ih =>
    obtain ⟨k', v'⟩ := hd
    by_cases hk : k' = k
    · subst hk
      simp [dinsert, dget, h']
    · simp only [dinsert, if_neg hk]
      by_cases ha : k' = a <;> simp [dget, ha, ih]

theorem mem_dkeys_dinsert {β : Type} {a k : String} (v : β) (d : Dict β) :
    a ∈ dkeys (dinsert k v d) ↔ a = k ∨ a ∈ dkeys d := by
  induction d with
  | nil => simp [dinsert, dkeys]
  | cons hd tl ih =>
    obtain ⟨k', v'⟩ := hd
    by_cases h : k' = k
    · subst h
      simp [dinsert, dkeys]
    · simp only [dinsert, if_neg h, dkeys, List.map_cons, List.mem_cons] at *
      rw [ih]
      tauto

theorem dget_mem_dkeys {β : Type} {a : String} {d : Dict β} {v : β}
    (h : dget d a = some v) : a ∈ dkeys d := by
  induction d with
  | nil => simp [dget] at h
  | cons hd tl ih =>
    obtain ⟨k', v'⟩ := hd
    by_cases hk : k' = a
    · subst hk; simp [dkeys]
    · simp only [dget, if_neg hk] at h
      simp [dkeys, List.mem_cons] at *
      exact Or.inr (ih h)

theorem subOccurs_iff {n h : List Char} : subOccurs n h = true ↔ n <:+: h := by
  induction h with
  | nil => simp [subOccurs]
  | cons c rest ih =>
    simp [subOccurs, ih, List.infix_cons_iff]

/-! ## Helper lemmas about the graph -/

theorem route_fallback_subset (task : String) : ∀ a ∈ route_fallback task, a ∈ validAgents := by
  intro a ha
  unfold route_fallback at ha
  by_cases h1 : (researchKeywords.any fun w => strContains (pyLower task) w) = true <;>
    by_cases h2 : (codeKeywords.any fun w => strContains (pyLower task) w) = true <;>
      by_cases h3 : (vizKeywords.any fun w => strContains (pyLower task) w) = true <;>
        simp [h1, h2, h3, validAgents] at ha ⊢ <;> tauto

theorem plan_mem_validAgents {α : Type} (env : Env α) (task : String) :
    ∀ a ∈ route_task env task, a ∈ validAgents := by
  intro a ha
  unfold route_task at ha
  cases h : env.llmRoute task with
  | some reply =>
    rw [h] at ha
    simpa [validAgents] using (List.mem_filter.mp ha).2
  | none =>
    rw [h] at ha
    exact route_fallback_subset task a ha

theorem research_node_fields {α : Type} (env : Env α) (s : AgentState α) :
    (research_node env s).task = s.task ∧
    (research_node env s).human_feedback = s.human_feedback ∧
    (research_node env s).status = s.status ∧
    (research_node env s).requires_human_input = s.requires_human_input ∧
    (research_node env s).agent_plan = s.agent_plan := by
  unfold research_node; split <;> exact ⟨rfl, rfl, rfl, rfl, rfl⟩

theorem code_node_fields {α : Type} (env : Env α) (s : AgentState α) :
    (code_node env s).task = s.task ∧
    (code_node env s).human_feedback = s.human_feedback ∧
    (code_node env s).status = s.status ∧
    (code_node env s).requires_human_input = s.requires_human_input ∧
    (code_node env s).agent_plan = s.agent_plan := by
  unfold code_node; split <;> exact ⟨rfl, rfl, rfl, rfl, rfl⟩

theorem visualization_node_fields {α : Type} (env : Env α) (s : AgentState α) :
    (visualization_node env s).task = s.task ∧
    (visualization_node env s).human_feedback = s.human_feedback ∧
    (visualization_node env s).status = s.status ∧
    (visualization_node env s).requires_human_input = s.requires_human_input ∧
    (visualization_node env s).agent_plan = s.agent_plan := by
  unfold visualization_node; split <;> exact ⟨rfl, rfl, rfl, rfl, rfl⟩

theorem research_node_results {α : Type} (env : Env α) (s : AgentState α) :
    (research_node env s).results =
      if "research" ∈ s.agent_plan then
        dinsert "research" (.payload (env.researchExec s.task)) s.results
      else s.results := by
  unfold research_node; split <;> simp_all

theorem code_node_results {α : Type} (env : Env α) (s : AgentState α) :
    (code_node env s).results =
      if "code" ∈ s.agent_plan then
        dinsert "code" (.payload (env.codeExec s.task (dget s.results "research"))) s.results
      else s.results := by
  unfold code_node; split <;> simp_all

theorem visualization_node_results {α : Type} (env : Env α) (s : AgentState α) :
    (visualization_node env s).results =
      if "visualization" ∈ s.agent_plan then
        dinsert "visualization"
          (.payload (env.vizExec s.task (dget s.results "research") (dget s.results "code")))
          s.results
      else s.results := by
  unfold visualization_node; split <;> simp_all

theorem first_pass_status {α : Type} (env : Env α) (s : AgentState α) :
    (first_pass env s).status = "awaiting_human_feedback" := rfl

theorem first_pass_rhi {α : Type} (env : Env α) (s : AgentState α) :
    (first_pass env s).requires_human_input = true := rfl

theorem first_pass_task {α : Type} (env : Env α) (s : AgentState α) :
    (first_pass env s).task = s.task := by
  unfold first_pass human_checkpoint
  simp only []
  rw [(visualization_node_fields env _).1, (code_node_fields env _).1,
      (research_node_fields env _).1]
  rfl

theorem first_pass_human_feedback {α : Type} (env : Env α) (s : AgentState α) :
    (first_pass env s).human_feedback = s.human_feedback := by
  unfold first_pass human_checkpoint
  simp only []
  rw [(visualization_node_fields env _).2.1, (code_node_fields env _).2.1,
      (research_node_fields env _).2.1]
  rfl

theorem first_pass_agent_plan {α : Type} (env : Env α) (s : AgentState α) :
    (first_pass env s).agent_plan = route_task env s.task := by
  unfold first_pass human_checkpoint
  simp only []
  rw [(visualization_node_fields env _).2.2.2.2, (code_node_fields env _).2.2.2.2,
      (research_node_fields env _).2.2.2.2]
  rfl

theorem mem_dkeys_first_pass_results {α : Type} (env : Env α) (s : AgentState α) (k : String) :
    k ∈ dkeys (first_pass env s).results ↔
      k ∈ dkeys s.results ∨
      (k = "research" ∧ "research" ∈ route_task env s.task) ∨
      (k = "code" ∧ "code" ∈ route_task env s.task) ∨
      (k = "visualization" ∧ "visualization" ∈ route_task env s.task) := by
  have hcp : (first_pass env s).results =
      (visualization_node env (code_node env (research_node env (router_node env s)))).results :=
    rfl
  rw [hcp, visualization_node_results, code_node_results, research_node_results]
  rw [(code_node_fields env _).2.2.2.2, (research_node_fields env _).2.2.2.2]
  have hplan : (router_node env s).agent_plan = route_task env s.task := rfl
  have hres : (router_node env s).results = s.results := rfl
  rw [hplan, hres]
  by_cases h1 : "research" ∈ route_task env s.task <;>
    by_cases h2 : "code" ∈ route_task env s.task <;>
      by_cases h3 : "visualization" ∈ route_task env s.task <;>
        simp [h1, h2, h3, mem_dkeys_dinsert] <;> tauto

theorem should_continue_of_some {α : Type} (s : AgentState α) (fb : Feedback)
    (h : s.human_feedback = some fb) : should_continue s = .finalize := by
  unfold should_continue
  cases hap : fb.approved <;> simp [fbApproved, h, hap]

theorem should_continue_of_suspended {α : Type} (s : AgentState α)
    (h : s.human_feedback = none) (hr : s.requires_human_input = true) :
    should_continue s = .endRoute := by
  simp [should_continue, fbApproved, h, hr]

theorem workflow_invoke_of_none {α : Type} (env : Env α) (s : AgentState α)
    (h : s.human_feedback = none) : workflow_invoke env s = first_pass env s := by
  unfold workflow_invoke
  rw [should_continue_of_suspended _ ((first_pass_human_feedback env s).trans h)
        (first_pass_rhi env s)]

theorem workflow_invoke_of_some {α : Type} (env : Env α) (s : AgentState α) (fb : Feedback)
    (h : s.human_feedback = some fb) :
    workflow_invoke env s = finalize_node (first_pass env s) := by
  unfold workflow_invoke
  rw [should_continue_of_some _ fb ((first_pass_human_feedback env s).trans h)]

theorem finalize_node_fields {α : Type} (s : AgentState α) :
    (finalize_node s).status = "completed" ∧
    (finalize_node s).requires_human_input = false ∧
    (finalize_node s).task = s.task ∧
    (finalize_node s).human_feedback = s.human_feedback ∧
    (finalize_node s).agent_plan = s.agent_plan ∧
    (finalize_node s).results =
      dinsert "final_output"
        (.finalOutput s.task "now" s.agent_plan s.results s.human_feedback) s.results :=
  ⟨rfl, rfl, rfl, rfl, rfl, rfl⟩

theorem submit_human_feedback_false {α : Type} (env : Env α) (now : String)
    (store : Dict (TaskRecord α)) (req : FeedbackReq) (rcd : TaskRecord α)
    (hget : dget store req.task_id = some rcd) (hap : req.approved = false) :
    submit_human_feedback env now store req =
      .ok (store_task_rec now req.task_id
             (workflow_invoke env (rejected_rerun_state now rcd.state req)) store,
           workflow_invoke env (rejected_rerun_state now rcd.state req)) := by
  unfold submit_human_feedback rejected_rerun_state
  rw [hget, hap]
  rfl

theorem strContains_append (a b c : String) : strContains (a ++ b ++ c) b = true := by
  unfold strContains
  rw [subOccurs_iff]
  exact ⟨a.data, c.data, by simp [String.data_append]⟩

theorem router_nodeE_ok {α : Type} (env : Env α) (s : AgentState α)
    (h : env.routerInit = none) : router_nodeE env s = .ok (router_node env s) := by
  simp [router_nodeE, h]

theorem research_nodeE_ok {α : Type} (env : Env α) (s : AgentState α)
    (h : env.researchInit = none) : research_nodeE env s = .ok (research_node env s) := by
  by_cases hm : "research" ∈ s.agent_plan <;> simp [research_nodeE, research_node, h, hm]

theorem code_nodeE_ok {α : Type} (env : Env α) (s : AgentState α)
    (h : env.codeInit = none) : code_nodeE env s = .ok (code_node env s) := by
  by_cases hm : "code" ∈ s.agent_plan <;> simp [code_nodeE, code_node, h, hm]

theorem visualization_nodeE_ok {α : Type} (env : Env α) (s : AgentState α)
    (h : env.vizInit = none) : visualization_nodeE env s = .ok (visualization_node env s) := by
  by_cases hm : "visualization" ∈ s.agent_plan <;>
    simp [visualization_nodeE, visualization_node, h, hm]

/-! ## Claim theorems -/

/-- C1: for every state, the conditional branch evaluated after the
checkpoint returns finalize when human_feedback is present with
approved = true, returns END when requires_human_input is true and
human_feedback is absent, and returns finalize in every remaining case. -/
theorem C1_should_continue_branches {α : Type} (s : AgentState α) :
    (∀ fb, s.human_feedback = some fb → fb.approved = true → should_continue s = .finalize) ∧
    (s.requires_human_input = true → s.human_feedback = none →
      should_continue s = .endRoute) ∧
    ((∀ fb, s.human_feedback = some fb → fb.approved = false) →
      ¬(s.requires_human_input = true ∧ s.human_feedback = none) →
      should_continue s = .finalize) := by
  refine ⟨?_, ?_, ?_⟩
  · intro fb hfb hap
    simp [should_continue, fbApproved, hfb, hap]
  · intro hr hn
    exact should_continue_of_suspended s hn hr
  · intro hnap hns
    cases hfb : s.human_feedback with
    | none =>
      have hr : s.requires_human_input = false := by
        cases hr : s.requires_human_input
        · rfl
        · exact absurd ⟨hr, hfb⟩ hns
      simp [should_continue, fbApproved, hfb, hr]
    | some fb =>
      simp [should_continue, fbApproved, hfb, hnap fb hfb]

/-- C1 witness: the three branches evaluated at concrete states. -/
theorem C1_witness :
    should_continue c1sA = Route.finalize ∧
    should_continue c1sB = Route.endRoute ∧
    should_continue c1sC = Route.finalize := by
  refine ⟨(C1_should_continue_branches c1sA).1 _ rfl rfl,
          (C1_should_continue_branches c1sB).2.1 rfl rfl,
          (C1_should_continue_branches c1sC).2.2 ?_ ?_⟩
  · intro fb hfb
    have h := Option.some.inj hfb
    rw [← h]
  · rintro ⟨-, h⟩
    exact Option.noConfusion h

/-- C3 (amended): the iff between requires_human_input and
status = awaiting_human_feedback holds for every state a full graph
invocation returns, hence for every state the task service persists.
States produced mid-operation by the feedback endpoint and by graph steps
during a resumption violate the iff (see C3_counterexample). -/
theorem C3_amended_invoke_invariant {α : Type} (env : Env α) (s : AgentState α) :
    (workflow_invoke env s).requires_human_input = true ↔
      (workflow_invoke env s).status = "awaiting_human_feedback" := by
  unfold workflow_invoke
  cases h : should_continue (first_pass env s) with
  | finalize =>
    rw [(finalize_node_fields _).2.1, (finalize_node_fields _).1]
    exact iff_of_false (by simp) (by decide)
  | endRoute =>
    rw [first_pass_rhi, first_pass_status]
    simp

/-- C3 counterexample: during an approved resumption (feedback merged and
status set to completing by the feedback endpoint while
requires_human_input is still true from the suspended snapshot), the
state produced by the router graph step has requires_human_input = true
and a status other than awaiting_human_feedback, refuting the claimed
iff for states produced by graph steps. -/
theorem C3_counterexample :
    (router_node envNone c8state).requires_human_input = true ∧
    (router_node envNone c8state).status ≠ "awaiting_human_feedback" :=
  ⟨by decide, by decide⟩

theorem workflow_invoke_agent_plan {α : Type} (env : Env α) (s : AgentState α) :
    (workflow_invoke env s).agent_plan = route_task env s.task := by
  unfold workflow_invoke
  cases h : should_continue (first_pass env s) with
  | finalize => rw [(finalize_node_fields _).2.2.2.2.1, first_pass_agent_plan]
  | endRoute => exact first_pass_agent_plan env s

/-- C4 (amended): one graph run only adds result keys drawn from the plan
it computes plus the synthetic final_output key; every other key of the
output state was already present in the input state. Stale keys of an
earlier pass survive a re-run whose recomputed plan no longer contains
them (see C4_counterexample), so containment in the current agent_plan
alone does not hold for feedback-driven re-runs. -/
theorem C4_amended_results_frame {α : Type} (env : Env α) (s : AgentState α) (k : String)
    (hk : k ∈ dkeys (workflow_invoke env s).results) :
    k ∈ dkeys s.results ∨ k ∈ (workflow_invoke env s).agent_plan ∨ k = "final_output" := by
  rw [workflow_invoke_agent_plan]
  have hkeys : k ∈ dkeys (first_pass env s).results ∨ k = "final_output" := by
    unfold workflow_invoke at hk
    rcases hcase : should_continue (first_pass env s) with _ | _
    · simp only [hcase] at hk
      rw [(finalize_node_fields _).2.2.2.2.2, mem_dkeys_dinsert] at hk
      tauto
    · simp only [hcase] at hk
      exact Or.inl hk
  rcases hkeys with hkfp | rfl
  · rw [mem_dkeys_first_pass_results] at hkfp
    rcases hkfp with h | ⟨rfl, h⟩ | ⟨rfl, h⟩ | ⟨rfl, h⟩
    · exact Or.inl h
    · exact Or.inr (Or.inl h)
    · exact Or.inr (Or.inl h)
    · exact Or.inr (Or.inl h)
  · exact Or.inr (Or.inr rfl)

/-- C4 amended witness. -/
theorem C4_witness :
    "research" ∈
      dkeys (workflow_invoke envNone (initial_state "Analyze stuff" "demo_user" "t1")).results ∧
    ("research" ∈ dkeys ((initial_state "Analyze stuff" "demo_user" "t1") : AgentState Unit).results ∨
     "research" ∈ (workflow_invoke envNone (initial_state "Analyze stuff" "demo_user" "t1")).agent_plan ∨
     "research" = "final_output") :=
  ⟨by decide, C4_amended_results_frame envNone _ "research" (by decide)⟩

/-- C4 counterexample: the first pass routes taskA to research and stores
a research result; rejected feedback rewrites the task, the re-run
re-routes to code, and the surviving research key of results lies outside
the current agent_plan (and is not final_output), refuting the claimed
containment. -/
theorem C4_counterexample :
    "research" ∈ dkeys (workflow_invoke envSplit c4merged).results ∧
    "research" ∉ (workflow_invoke envSplit c4merged).agent_plan ∧
    "research" ≠ "final_output" :=
  ⟨by decide, by decide, by decide⟩

/-- C6 (amended): the graph invocation is total and returns a state
provided the four agent constructors succeed; capability execute failures
are captured as payload-level fallback values (the execute methods wrap
their bodies in try/except), which the environment models by total exec
functions. When an agent constructor raises, for example with a missing
API key, the exception escapes the invocation (see C6_counterexample). -/
theorem C6_amended_total_when_constructors_ok {α : Type} (env : Env α) (s : AgentState α)
    (h1 : env.routerInit = none) (h2 : env.researchInit = none)
    (h3 : env.codeInit = none) (h4 : env.vizInit = none) :
    workflow_invokeE env s = .ok (workflow_invoke env s) := by
  unfold workflow_invokeE workflow_invoke first_pass
  simp only [router_nodeE_ok, research_nodeE_ok, code_nodeE_ok, visualization_nodeE_ok,
    h1, h2, h3, h4]
  cases hsc : should_continue
      (human_checkpoint (visualization_node env (code_node env (research_node env (router_node env s))))) <;>
    simp [hsc]

/-- C6 amended witness. -/
theorem C6_witness :
    (envNone.routerInit = none ∧ envNone.researchInit = none ∧
     envNone.codeInit = none ∧ envNone.vizInit = none) ∧
    workflow_invokeE envNone (initial_state "x" "u" "i") =
      .ok (workflow_invoke envNone (initial_state "x" "u" "i")) :=
  ⟨⟨rfl, rfl, rfl, rfl⟩,
   C6_amended_total_when_constructors_ok envNone (initial_state "x" "u" "i") rfl rfl rfl rfl⟩

/-- C6 counterexample: with the API key unset, RouterAgent construction
inside router_node raises outside every try block, and the graph
invocation surfaces an exception instead of returning a state, refuting
the never-raises contract as stated. -/
theorem C6_counterexample :
    workflow_invokeE envNoKey (initial_state "Analyze stuff" "demo_user" "t1") =
      .error "The api_key client option must be set" := rfl

/-- C5: feedback submission with a task_id absent from the store surfaces
the not-found error to the caller; the function raises before touching the
stored record or the store, so no mutated store is produced and the caller
keeps the store unchanged. -/
theorem C5_unknown_task_id {α : Type} (env : Env α) (now : String)
    (store : Dict (TaskRecord α)) (req : FeedbackReq)
    (h : dget store req.task_id = none) :
    submit_human_feedback env now store req = .error "Task not found" := by
  unfold submit_human_feedback
  rw [h]

/-- C5 witness: the empty store and a concrete request. -/
theorem C5_witness :
    dget ([] : Dict (TaskRecord Unit)) "missing" = none ∧
    submit_human_feedback envNone "now" ([] : Dict (TaskRecord Unit)) ⟨"missing", true, "", []⟩ =
      .error "Task not found" :=
  ⟨rfl, C5_unknown_task_id envNone "now" [] ⟨"missing", true, "", []⟩ rfl⟩

/-- C2: submitting feedback with approved = false for a stored task still
reaches status completed through the re-invoked graph run, and the task
description at finalization is the original one with the feedback text
appended inside a marker, hence contains the feedback text as a
substring. The response status string of the HTTP layer is reprocessed,
but the stored state itself is completed. -/
theorem C2_rejected_feedback_completes {α : Type} (env : Env α) (now : String)
    (store : Dict (TaskRecord α)) (req : FeedbackReq) (rcd : TaskRecord α)
    (hget : dget store req.task_id = some rcd) (hap : req.approved = false) :
    ∃ result : AgentState α,
      submit_human_feedback env now store req =
        .ok (store_task_rec now req.task_id result store, result) ∧
      result.status = "completed" ∧
      result.task =
        rcd.state.task ++ " (Modified based on feedback: " ++ req.feedback ++ ")" ∧
      strContains result.task req.feedback = true := by
  refine ⟨workflow_invoke env (rejected_rerun_state now rcd.state req),
          submit_human_feedback_false env now store req rcd hget hap, ?_, ?_, ?_⟩
  · rw [workflow_invoke_of_some env (rejected_rerun_state now rcd.state req)
          ⟨false, req.feedback, req.modifications, now⟩ rfl]
    exact (finalize_node_fields _).1
  · rw [workflow_invoke_of_some env (rejected_rerun_state now rcd.state req)
          ⟨false, req.feedback, req.modifications, now⟩ rfl,
        (finalize_node_fields _).2.2.1, first_pass_task]
    rfl
  · have htask : (workflow_invoke env (rejected_rerun_state now rcd.state req)).task =
        (rcd.state.task ++ " (Modified based on feedback: ") ++ req.feedback ++ ")" := by
      rw [workflow_invoke_of_some env (rejected_rerun_state now rcd.state req)
            ⟨false, req.feedback, req.modifications, now⟩ rfl,
          (finalize_node_fields _).2.2.1, first_pass_task]
      rfl
    rw [htask]
    exact strContains_append _ _ _

/-- C2 witness: a concrete suspended task, rejected feedback. -/
theorem C2_witness :
    (dget c2store "t1" = some ⟨c2pass1, "d1"⟩ ∧ c2req.approved = false) ∧
    (∃ result : AgentState Unit,
      submit_human_feedback envNone "d2" c2store c2req =
        .ok (store_task_rec "d2" "t1" result c2store, result) ∧
      result.status = "completed" ∧
      result.task = c2pass1.task ++ " (Modified based on feedback: " ++ "try harder" ++ ")" ∧
      strContains result.task "try harder" = true) :=
  ⟨⟨rfl, rfl⟩, C2_rejected_feedback_completes envNone "d2" c2store c2req ⟨c2pass1, "d1"⟩ rfl rfl⟩

/-- C7: one full graph traversal of a state with empty results and no
feedback ends suspended: status awaiting_human_feedback,
requires_human_input true, and the key set of results is exactly the
agent_plan, with no final_output key. -/
theorem C7_first_traversal_shape {α : Type} (env : Env α) (s : AgentState α)
    (hres : s.results = []) (hfb : s.human_feedback = none) :
    (workflow_invoke env s).status = "awaiting_human_feedback" ∧
    (workflow_invoke env s).requires_human_input = true ∧
    (∀ k, k ∈ dkeys (workflow_invoke env s).results ↔ k ∈ (workflow_invoke env s).agent_plan) ∧
    "final_output" ∉ dkeys (workflow_invoke env s).results := by
  rw [workflow_invoke_of_none env s hfb]
  refine ⟨first_pass_status env s, first_pass_rhi env s, ?_, ?_⟩
  · intro k
    rw [mem_dkeys_first_pass_results, first_pass_agent_plan, hres]
    constructor
    · rintro (h | ⟨rfl, h⟩ | ⟨rfl, h⟩ | ⟨rfl, h⟩)
      · simp [dkeys] at h
      · exact h
      · exact h
      · exact h
    · intro hk
      have hv := plan_mem_validAgents env s.task k hk
      simp [validAgents] at hv
      rcases hv with rfl | rfl | rfl
      · exact Or.inr (Or.inl ⟨rfl, hk⟩)
      · exact Or.inr (Or.inr (Or.inl ⟨rfl, hk⟩))
      · exact Or.inr (Or.inr (Or.inr ⟨rfl, hk⟩))
  · intro hmem
    rw [mem_dkeys_first_pass_results, hres] at hmem
    rcases hmem with h | ⟨h, -⟩ | ⟨h, -⟩ | ⟨h, -⟩
    · simp [dkeys] at h
    · exact absurd h (by decide)
    · exact absurd h (by decide)
    · exact absurd h (by decide)

/-- C7 witness: a concrete fresh state, with the key-set equivalence
instanced at the key research. -/
theorem C7_witness :
    ((initial_state "Analyze stuff" "demo_user" "t1" : AgentState Unit).results = [] ∧
     (initial_state "Analyze stuff" "demo_user" "t1" : AgentState Unit).human_feedback = none) ∧
    (workflow_invoke envNone (initial_state "Analyze stuff" "demo_user" "t1")).status =
      "awaiting_human_feedback" ∧
    (workflow_invoke envNone (initial_state "Analyze stuff" "demo_user" "t1")).requires_human_input
      = true ∧
    ("research" ∈ dkeys (workflow_invoke envNone (initial_state "Analyze stuff" "demo_user" "t1")).results ↔
      "research" ∈ (workflow_invoke envNone (initial_state "Analyze stuff" "demo_user" "t1")).agent_plan) ∧
    "final_output" ∉ dkeys (workflow_invoke envNone (initial_state "Analyze stuff" "demo_user" "t1")).results :=
  ⟨⟨rfl, rfl⟩,
   (C7_first_traversal_shape envNone _ rfl rfl).1,
   (C7_first_traversal_shape envNone _ rfl rfl).2.1,
   (C7_first_traversal_shape envNone _ rfl rfl).2.2.1 "research",
   (C7_first_traversal_shape envNone _ rfl rfl).2.2.2⟩

/-- C8: a graph run over a state carrying approved feedback finalizes:
status completed, requires_human_input false, and the agents_used field of
results.final_output equals the agent_plan of the final state. -/
theorem C8_approved_resumption {α : Type} (env : Env α) (s : AgentState α) (fb : Feedback)
    (hfb : s.human_feedback = some fb) (_hap : fb.approved = true) :
    (workflow_invoke env s).status = "completed" ∧
    (workflow_invoke env s).requires_human_input = false ∧
    (dget (workflow_invoke env s).results "final_output").bind RVal.agentsUsed? =
      some (workflow_invoke env s).agent_plan := by
  rw [workflow_invoke_of_some env s fb hfb]
  refine ⟨(finalize_node_fields _).1, (finalize_node_fields _).2.1, ?_⟩
  rw [(finalize_node_fields _).2.2.2.2.2, dget_dinsert_self]
  rfl

/-- C8 witness: a concrete suspended task with approved feedback merged. -/
theorem C8_witness :
    (c8state.human_feedback = some ⟨true, "ok", [], "d2"⟩ ∧
     (⟨true, "ok", [], "d2"⟩ : Feedback).approved = true) ∧
    (workflow_invoke envNone c8state).status = "completed" ∧
    (workflow_invoke envNone c8state).requires_human_input = false ∧
    (dget (workflow_invoke envNone c8state).results "final_output").bind RVal.agentsUsed? =
      some (workflow_invoke envNone c8state).agent_plan :=
  ⟨⟨rfl, rfl⟩, C8_approved_resumption envNone c8state ⟨true, "ok", [], "d2"⟩ rfl rfl⟩

/-- C9: the keyword fallback of the router always returns a non-empty
plan, and returns exactly [research] when no keyword of the research, code
or visualization lists occurs in the lowercased task. -/
theorem C9_fallback_never_empty (task : String) :
    route_fallback task ≠ [] ∧
    ((researchKeywords.any fun w => strContains (pyLower task) w) = false →
     (codeKeywords.any fun w => strContains (pyLower task) w) = false →
     (vizKeywords.any fun w => strContains (pyLower task) w) = false →
     route_fallback task = ["research"]) := by
  constructor
  · unfold route_fallback
    by_cases h1 : (researchKeywords.any fun w => strContains (pyLower task) w) = true <;>
      by_cases h2 : (codeKeywords.any fun w => strContains (pyLower task) w) = true <;>
        by_cases h3 : (vizKeywords.any fun w => strContains (pyLower task) w) = true <;>
          simp [h1, h2, h3]
  · intro h1 h2 h3
    unfold route_fallback
    simp [h1, h2, h3]

/-- C9 witness: a task containing no routing keyword. -/
theorem C9_witness :
    (researchKeywords.any fun w => strContains (pyLower "hello world") w) = false ∧
    (codeKeywords.any fun w => strContains (pyLower "hello world") w) = false ∧
    (vizKeywords.any fun w => strContains (pyLower "hello world") w) = false ∧
    route_fallback "hello world" = ["research"] ∧
    route_fallback "hello world" ≠ [] :=
  ⟨by decide, by decide, by decide,
   (C9_fallback_never_empty "hello world").2 (by decide) (by decide) (by decide),
   (C9_fallback_never_empty "hello world").1⟩

theorem dkeys_list_tasks {α : Type} (m : Dict (JDict α)) :
    dkeys (MemoryStore.list_tasks m) = dkeys m := by
  induction m with
  | nil => rfl
  | cons hd tl _ =>
    simp [MemoryStore.list_tasks, dkeys]

theorem dget_list_tasks {α : Type} (m : Dict (JDict α)) (k : String) :
    dget (MemoryStore.list_tasks m) k =
      (dget m k).map (fun d =>
        (⟨(dget d "task").getD (.str ""), (dget d "status").getD (.str ""),
          (dget d "last_updated").getD (.str "")⟩ : MemoryStore.ListEntry α)) := by
  induction m with
  | nil => rfl
  | cons hd tl ih =>
    obtain ⟨k', d⟩ := hd
    by_cases h : k' = k
    · simp [MemoryStore.list_tasks, dget, h]
    · simp [MemoryStore.list_tasks, dget, h]
      simpa [MemoryStore.list_tasks] using ih

/-- C10 (amended): store_context keeps contexts inside the one shared task
mapping: after store_context the list_tasks summary always contains a row
whose task id is contexts; the task and status fields of that row are the
empty string provided the resulting context store holds nothing under the
keys task or status (in particular on a memory with no previous contexts
entry and a context key other than task and status); and a subsequent
store_task with task_id contexts replaces the entire context store with
the stamped task record. No operation prevents the collision. -/
theorem C10_amended_context_collision {α : Type} (memory : Dict (JDict α))
    (now now2 key : String) (context td : JDict α)
    (hfresh : dget memory "contexts" = none) (hk1 : key ≠ "task") (hk2 : key ≠ "status") :
    "contexts" ∈
      dkeys (MemoryStore.list_tasks (MemoryStore.store_context now key context memory)) ∧
    (dget (MemoryStore.list_tasks (MemoryStore.store_context now key context memory))
        "contexts").map MemoryStore.ListEntry.task = some (.str "") ∧
    (dget (MemoryStore.list_tasks (MemoryStore.store_context now key context memory))
        "contexts").map MemoryStore.ListEntry.status = some (.str "") ∧
    dget (MemoryStore.store_task now2 "contexts" td
            (MemoryStore.store_context now key context memory)) "contexts" =
      some (dinsert "last_updated" (.str now2) td) := by
  unfold MemoryStore.store_context
  rw [hfresh]
  refine ⟨?_, ?_, ?_, ?_⟩
  · rw [dkeys_list_tasks, mem_dkeys_dinsert]
    exact Or.inl rfl
  · rw [dget_list_tasks, dget_dinsert_self]
    simp [dinsert, dget, hk1]
  · rw [dget_list_tasks, dget_dinsert_self]
    simp [dinsert, dget, hk1, hk2]
  · unfold MemoryStore.store_task
    rw [dget_dinsert_self]

/-- C10 amended witness. -/
theorem C10_witness :
    (dget ([] : Dict (JDict Unit)) "contexts" = none ∧
     "k" ≠ "task" ∧ "k" ≠ "status") ∧
    "contexts" ∈ dkeys (MemoryStore.list_tasks
      (MemoryStore.store_context "t0" "k" [("x", .str "1")] ([] : Dict (JDict Unit)))) ∧
    (dget (MemoryStore.list_tasks
        (MemoryStore.store_context "t0" "k" [("x", .str "1")] ([] : Dict (JDict Unit))))
      "contexts").map MemoryStore.ListEntry.task = some (.str "") ∧
    dget (MemoryStore.store_task "t1" "contexts" [("task", .str "T")]
            (MemoryStore.store_context "t0" "k" [("x", .str "1")] ([] : Dict (JDict Unit))))
        "contexts" =
      some (dinsert "last_updated" (.str "t1") [("task", .str "T")]) :=
  ⟨⟨rfl, by decide, by decide⟩,
   (C10_amended_context_collision [] "t0" "t1" "k" [("x", .str "1")] [("task", .str "T")]
      rfl (by decide) (by decide)).1,
   (C10_amended_context_collision [] "t0" "t1" "k" [("x", .str "1")] [("task", .str "T")]
      rfl (by decide) (by decide)).2.1,
   (C10_amended_context_collision [] "t0" "t1" "k" [("x", .str "1")] [("task", .str "T")]
      rfl (by decide) (by decide)).2.2.2⟩

/-- C10 counterexample: storing a context under the key task makes the
contexts row of list_tasks carry the wrapper dict of that context as its
task field, which is not the empty string the claim asserts for every
store state and key. -/
theorem C10_counterexample :
    (dget (MemoryStore.list_tasks c10m1) "contexts").map MemoryStore.ListEntry.task =
      some c10wrap ∧
    c10wrap ≠ JVal.str "" :=
  ⟨rfl, fun h => JVal.noConfusion h⟩

end LGA
